import Mathlib

/-!
Verification of the proxmox_snap_info module
(src/plugins/modules/proxmox_snap_info.py). The module resolves an
instance identifier, fetches a snapshot list from a Proxmox VE cluster
and filters it by name and by minimum age in days. The external
collaborator (the ProxmoxSnapAnsible helper wrapping the API client) is
modelled as a record of oracle functions; the wall clock read by
time.time() is an explicit parameter, and the float arithmetic of the
age test is modelled exactly over the rationals.
-/

namespace ProxmoxSnapInfo

/-- SnapshotRecord: one entry of the list returned by the snapshot fetch.
The snaptime field is seconds since epoch, modelled as a rational so that
fractional times are exact. -/
structure Snapshot where
  name : String
  snaptime : ℚ
deriving DecidableEq

/-- Python truthiness of an optional string parameter: None and the empty
string are falsy, every other string is truthy. -/
def truthy : Option String → Bool
  | none => false
  | some s => !(s == "")

/-- External collaborator ProxmoxSnapAnsible, reduced to the two
capabilities the module consumes: get_vmid (hostname resolution, where
none models a falsy result) and the combined get_vm plus
snapshot(vm, vmid).get() fetch. Identifier values are kept opaque as
optional strings. -/
structure ProxmoxSnapAnsible where
  get_vmid : String → Option String
  snapshotGet : Option String → List Snapshot

/-- Outcome of get_proxmox_snapshotlist: either an early module.exit_json
with its changed flag and msg, or the snapshot list it returns. -/
inductive ExitOrList where
  | exited : Bool → String → ExitOrList
  | ok : List Snapshot → ExitOrList
deriving DecidableEq

/-- Lines 105 to 110 of the module: fetch the snapshot list for vmid and
exit_json with changed=False and msg="Snapshots could not be fetched"
when the result is falsy (None or the empty list; the empty list models
both). -/
def fetchPart (proxmox : ProxmoxSnapAnsible) (vmid : Option String) :
    ExitOrList :=
  let snapshotlist := proxmox.snapshotGet vmid
  if snapshotlist.isEmpty then
    ExitOrList.exited false "Snapshots could not be fetched"
  else
    ExitOrList.ok snapshotlist

/-- get_proxmox_snapshotlist, lines 98 to 112: when vmid is falsy and
hostname is truthy, vmid is reassigned to the resolution result and
control falls through to the fetch with that result, whatever it is;
when both vmid and hostname are falsy, exit_json early with
msg="Vmid could not be fetched"; otherwise fetch with the given vmid. -/
def get_proxmox_snapshotlist (proxmox : ProxmoxSnapAnsible)
    (hostname vmid : Option String) : ExitOrList :=
  if !(truthy vmid) && truthy hostname then
    fetchPart proxmox (proxmox.get_vmid (hostname.getD ""))
  else if !(truthy vmid) then
    ExitOrList.exited false "Vmid could not be fetched"
  else
    fetchPart proxmox vmid

/-- Module parameters of the snap_args spec, lines 116 to 122: vmid and
hostname are plain optional strings, timeout and older_than are integers
with defaults 30 and 0, snapname is an optional string. The
proxmox_auth arguments live inside the opaque collaborator
construction. -/
structure Params where
  hostname : Option String
  vmid : Option String
  timeout : ℤ
  snapname : Option String
  older_than : ℤ
deriving DecidableEq

/-- Final outcome of main: exit_json with the changed flag, an optional
msg and an optional results list, or fail_json on the missing dependency
path of line 133. -/
inductive ModuleExit where
  | exitJson : Bool → Option String → Option (List String) → ModuleExit
  | failJson : String → ModuleExit
deriving DecidableEq

/-- Age test of line 150:
((time.time() - s["snaptime"]) / 60 / 60 / 24) > older_than, with the
current time passed in explicitly. -/
def agePasses (now snaptime : ℚ) (older_than : ℤ) : Bool :=
  decide ((now - snaptime) / 60 / 60 / 24 > (older_than : ℚ))

/-- The filtering loop of lines 144 to 151, with the three checks in
source order: skip records whose name equals current; when snapname is
truthy, skip names that do not start with it; append the name when the
age test passes. -/
def snapLoop (now : ℚ) (snapname : Option String) (older_than : ℤ) :
    List Snapshot → List String
  | [] => []
  | s :: rest =>
    if s.name == "current" then
      snapLoop now snapname older_than rest
    else if truthy snapname && !(s.name.startsWith (snapname.getD "")) then
      snapLoop now snapname older_than rest
    else if agePasses now s.snaptime older_than then
      s.name :: snapLoop now snapname older_than rest
    else
      snapLoop now snapname older_than rest

/-- main, lines 114 to 158: fail_json when the proxmox_snap import is
unavailable; otherwise build the collaborator from the module and run
get_proxmox_snapshotlist; an early exit_json propagates unchanged, and
otherwise the module exits with changed=False and the filtered name
list as results. -/
def main (has_proxmox_snap : Bool) (mk : Params → ProxmoxSnapAnsible)
    (now : ℚ) (p : Params) : ModuleExit :=
  if !has_proxmox_snap then
    ModuleExit.failJson "missing required library: proxmox_snap"
  else
    match get_proxmox_snapshotlist (mk p) p.hostname p.vmid with
    | ExitOrList.exited changed msg => ModuleExit.exitJson changed (some msg) none
    | ExitOrList.ok snapshotlist =>
      ModuleExit.exitJson false none
        (some (snapLoop now p.snapname p.older_than snapshotlist))

/-- Name check of the loop as a predicate: a name passes when snapname is
falsy or the name starts with it. -/
def prefixPasses (snapname : Option String) (n : String) : Bool :=
  !(truthy snapname) || n.startsWith (snapname.getD "")

/-- Per-record pass decision combining the three checks of the loop. -/
def keepSnap (now : ℚ) (snapname : Option String) (older_than : ℤ)
    (s : Snapshot) : Bool :=
  !(s.name == "current") && prefixPasses snapname s.name &&
    agePasses now s.snaptime older_than

/-- Every string starts with the empty string. -/
lemma startsWith_empty (s : String) : s.startsWith "" = true := by
  simp only [String.startsWith, Substring.take, String.toSubstring]
  show Substring.beq _ _ = true
  simp only [Substring.beq, String.substrEq, Substring.nextn, Substring.bsize]
  unfold String.substrEq.loop
  simp

/-- The loop equals a filter by the combined per-record decision followed
by a projection to names. -/
lemma snapLoop_eq_filter_map (now : ℚ) (sn : Option String) (ot : ℤ)
    (snaps : List Snapshot) :
    snapLoop now sn ot snaps =
      (snaps.filter (keepSnap now sn ot)).map Snapshot.name := by
  induction snaps with
  | nil => rfl
  | cons s rest ih =>
    simp only [snapLoop, List.filter_cons, keepSnap, prefixPasses]
    by_cases hcur : (s.name == "current") = true
    · simp [hcur, ih]
    · by_cases htr : truthy sn = true
      · by_cases hsw : s.name.startsWith (sn.getD "") = true
        · by_cases hage : agePasses now s.snaptime ot = true
          · simp [hcur, htr, hsw, hage, ih]
          · simp [hcur, htr, hsw, hage, ih]
        · simp [hcur, htr, hsw, ih]
      · by_cases hage : agePasses now s.snaptime ot = true
        · simp [hcur, htr, hage, ih]
        · simp [hcur, htr, hage, ih]

/-- Oracle for which hostname resolution yields nothing while the
snapshot fetch returns a single one-day-old record. -/
def unresolvedOracle : ProxmoxSnapAnsible :=
  { get_vmid := fun _ => none
    snapshotGet := fun _ => [⟨"snap1", -86400⟩] }

/-- Parameters supplying a hostname but no vmid. -/
def unresolvedParams : Params :=
  { hostname := some "myvm", vmid := none, timeout := 30,
    snapname := none, older_than := 0 }

/-- Parameters supplying neither a hostname nor a vmid. -/
def noIdParams : Params :=
  { hostname := none, vmid := none, timeout := 30,
    snapname := none, older_than := 0 }

/-- Oracle whose snapshot fetch always returns the empty list. -/
def emptyOracle : ProxmoxSnapAnsible :=
  { get_vmid := fun _ => some "100"
    snapshotGet := fun _ => [] }

/-- A one-day-old snapshot passes the age test against older_than zero at
time zero. -/
lemma agePasses_day : agePasses 0 (-86400) 0 = true := by
  simp only [agePasses, decide_eq_true_eq]
  norm_num

/-- Concrete evaluation: with a hostname, no vmid and a resolver that
yields nothing, main runs to completion and returns the fetched name. -/
lemma main_unresolved_eval :
    main true (fun _ => unresolvedOracle) 0 unresolvedParams =
      ModuleExit.exitJson false none (some ["snap1"]) := by
  simp [main, get_proxmox_snapshotlist, fetchPart, unresolvedOracle,
    unresolvedParams, truthy, snapLoop, agePasses_day]

/-- Concrete evaluation: with neither hostname nor vmid, main exits early
with the soft Vmid message. -/
lemma main_no_ids_eval :
    main true (fun _ => unresolvedOracle) 0 noIdParams =
      ModuleExit.exitJson false (some "Vmid could not be fetched") none := rfl

/-- Every exit_json issued by the fetch step carries changed=False. -/
lemma fetchPart_exited_false (proxmox : ProxmoxSnapAnsible)
    (vmid : Option String) (ch : Bool) (msg : String)
    (h : fetchPart proxmox vmid = ExitOrList.exited ch msg) : ch = false := by
  unfold fetchPart at h
  by_cases he : (proxmox.snapshotGet vmid).isEmpty = true
  · simp only [he, if_true] at h
    cases h
    rfl
  · simp only [he, if_false] at h
    cases h

/-- Every exit_json issued inside get_proxmox_snapshotlist carries
changed=False. -/
lemma get_snapshotlist_exited_false (proxmox : ProxmoxSnapAnsible)
    (hostname vmid : Option String) (ch : Bool) (msg : String)
    (h : get_proxmox_snapshotlist proxmox hostname vmid =
      ExitOrList.exited ch msg) : ch = false := by
  unfold get_proxmox_snapshotlist at h
  by_cases h1 : (!truthy vmid && truthy hostname) = true
  · rw [if_pos h1] at h
    exact fetchPart_exited_false _ _ _ _ h
  · rw [if_neg h1] at h
    by_cases h2 : (!truthy vmid) = true
    · rw [if_pos h2] at h
      cases h
      rfl
    · rw [if_neg h2] at h
      exact fetchPart_exited_false _ _ _ _ h

/-- C1: for every fetched snapshot list and every combination of snapname
and older_than values, the record named current never appears in the
results list produced by the filtering loop. -/
theorem c1_current_never_in_results (now : ℚ) (sn : Option String) (ot : ℤ)
    (snaps : List Snapshot) :
    decide ("current" ∈ snapLoop now sn ot snaps) = false := by
  apply decide_eq_false
  intro hmem
  rw [snapLoop_eq_filter_map] at hmem
  rcases List.mem_map.mp hmem with ⟨s, hs, hname⟩
  have hkeep := List.of_mem_filter hs
  rw [keepSnap] at hkeep
  simp [hname] at hkeep

/-- C2: the age filter is a strict inequality: a record aged exactly d days
to the second fails the age test and is dropped from the results, while a
record aged d days plus any positive epsilon passes it and, when the name
checks also pass, appears in the results. -/
theorem c2_strict_age_boundary (now : ℚ) (d : ℤ) (ε : ℚ) (hε : 0 < ε)
    (sn : Option String) (n : String) (hn : n ≠ "current")
    (hp : prefixPasses sn n = true) :
    agePasses now (now - d * 86400) d = false ∧
    agePasses now (now - (d * 86400 + ε)) d = true ∧
    snapLoop now sn d [⟨n, now - d * 86400⟩] = [] ∧
    snapLoop now sn d [⟨n, now - (d * 86400 + ε)⟩] = [n] := by
  have hexact : agePasses now (now - d * 86400) d = false := by
    simp only [agePasses, decide_eq_false_iff_not]
    ring_nf
    norm_num
  have hover : agePasses now (now - (d * 86400 + ε)) d = true := by
    simp only [agePasses, decide_eq_true_eq]
    have h : (now - (now - (d * 86400 + ε))) / 60 / 60 / 24 =
        (d : ℚ) + ε / 86400 := by ring
    rw [h]
    have h2 : (0 : ℚ) < ε / 86400 := by positivity
    linarith
  have hbeq : (n == "current") = false := by
    simp [hn]
  have hskip : (truthy sn && !(n.startsWith (sn.getD ""))) = false := by
    rw [prefixPasses] at hp
    cases htr : truthy sn <;> cases hsw : n.startsWith (sn.getD "") <;>
      simp_all
  refine ⟨hexact, hover, ?_, ?_⟩
  · simp [snapLoop, hbeq, hskip, hexact]
  · simp [snapLoop, hbeq, hskip, hover]

/-- C2 witness at now zero, d two, epsilon one and a daily record. -/
theorem c2_strict_age_boundary_witness :
    agePasses 0 (0 - 2 * 86400) 2 = false ∧
    agePasses 0 (0 - (2 * 86400 + 1)) 2 = true ∧
    snapLoop 0 none 2 [⟨"daily_1", 0 - 2 * 86400⟩] = [] ∧
    snapLoop 0 none 2 [⟨"daily_1", 0 - (2 * 86400 + 1)⟩] = ["daily_1"] :=
  c2_strict_age_boundary 0 2 1 (by norm_num) none "daily_1" (by decide) rfl

/-- C3 counterexample: with no vmid, a hostname, and a resolver that
yields nothing, the module does not stop at the resolution checkpoint
with the soft identifier message and no results; it proceeds to the
fetch and returns the fetched names. -/
theorem c3_counterexample :
    main true (fun _ => unresolvedOracle) 0 unresolvedParams =
      ModuleExit.exitJson false none (some ["snap1"]) ∧
    main true (fun _ => unresolvedOracle) 0 unresolvedParams ≠
      ModuleExit.exitJson false (some "Vmid could not be fetched") none := by
  refine ⟨main_unresolved_eval, ?_⟩
  rw [main_unresolved_eval]
  simp

/-- C3 amended: the soft identifier exit fires exactly when both vmid and
hostname are falsy; when vmid is falsy and hostname is truthy the module
resolves the hostname and always proceeds to the fetch with the
resolution result, even when resolution yields nothing. -/
theorem c3_amended_resolution_flow (proxmox : ProxmoxSnapAnsible)
    (hostname vmid : Option String) (hv : truthy vmid = false) :
    (truthy hostname = false →
      get_proxmox_snapshotlist proxmox hostname vmid =
        ExitOrList.exited false "Vmid could not be fetched") ∧
    (truthy hostname = true →
      get_proxmox_snapshotlist proxmox hostname vmid =
        fetchPart proxmox (proxmox.get_vmid (hostname.getD ""))) := by
  constructor <;> intro hh <;> simp [get_proxmox_snapshotlist, hv, hh]

/-- C3 amended witness: both branches at concrete inputs. -/
theorem c3_amended_resolution_flow_witness :
    (get_proxmox_snapshotlist unresolvedOracle none none =
      ExitOrList.exited false "Vmid could not be fetched") ∧
    (get_proxmox_snapshotlist unresolvedOracle (some "myvm") none =
      fetchPart unresolvedOracle (unresolvedOracle.get_vmid "myvm")) :=
  ⟨(c3_amended_resolution_flow unresolvedOracle none none rfl).1 rfl,
   (c3_amended_resolution_flow unresolvedOracle (some "myvm") none rfl).2
     (by decide)⟩

/-- C4: when snapname is set to p, every name in the results starts with
p; a name that does not start with p never appears, whatever its age. -/
theorem c4_prefix_filter (now : ℚ) (p : String) (ot : ℤ)
    (snaps : List Snapshot) (n : String)
    (hmem : n ∈ snapLoop now (some p) ot snaps) :
    n.startsWith p = true := by
  by_cases hp : p = ""
  · subst hp
    exact startsWith_empty n
  · rw [snapLoop_eq_filter_map] at hmem
    rcases List.mem_map.mp hmem with ⟨s, hs, hname⟩
    have hkeep := List.of_mem_filter hs
    rw [keepSnap, prefixPasses] at hkeep
    have htr : truthy (some p) = true := by
      simp [truthy, hp]
    rw [← hname]
    simp only [htr, Option.getD_some, Bool.and_eq_true, Bool.or_eq_true,
      Bool.not_eq_true] at hkeep
    rcases hkeep with ⟨⟨_, hpre⟩, _⟩
    rcases hpre with hfalse | hsw
    · cases hfalse
    · exact hsw

/-- C4 witness: the returned name from a concrete run starts with the
configured snapname value. -/
theorem c4_prefix_filter_witness : ("snap1".startsWith "") = true :=
  c4_prefix_filter 0 "" 0 [⟨"snap1", -86400⟩] "snap1"
    (by simp [snapLoop, truthy, agePasses_day])

/-- C5: on every reachable exit_json path of main, normal or soft, the
changed field is false. -/
theorem c5_changed_always_false (hps : Bool)
    (mk : Params → ProxmoxSnapAnsible) (now : ℚ) (p : Params) (c : Bool)
    (m : Option String) (r : Option (List String))
    (h : main hps mk now p = ModuleExit.exitJson c m r) : c = false := by
  unfold main at h
  split at h
  · cases h
  · cases hg : get_proxmox_snapshotlist (mk p) p.hostname p.vmid with
    | exited ch msg =>
      rw [hg] at h
      injection h with hc hm hr
      rw [← hc]
      exact get_snapshotlist_exited_false (mk p) p.hostname p.vmid ch msg hg
    | ok l =>
      rw [hg] at h
      injection h with hc hm hr
      rw [← hc]

/-- C5 witness at the early-exit path with neither identifier present. -/
theorem c5_changed_always_false_witness : false = false :=
  c5_changed_always_false true (fun _ => unresolvedOracle) 0 noIdParams
    false (some "Vmid could not be fetched") none main_no_ids_eval

/-- C6: the timeout parameter reaches only the collaborator construction:
whenever the collaborator built from the parameters is unchanged, varying
timeout leaves the outcome of main unchanged, so the core logic never
interprets it. -/
theorem c6_timeout_passthrough (hps : Bool)
    (mk : Params → ProxmoxSnapAnsible) (now : ℚ) (p : Params) (t : ℤ)
    (hmk : mk p = mk { p with timeout := t }) :
    main hps mk now p = main hps mk now { p with timeout := t } := by
  unfold main
  rw [hmk]

/-- C6 witness: timeouts thirty and ninety-nine give the same outcome. -/
theorem c6_timeout_passthrough_witness :
    main true (fun _ => unresolvedOracle) 0 noIdParams =
      main true (fun _ => unresolvedOracle) 0
        { noIdParams with timeout := 99 } :=
  c6_timeout_passthrough true (fun _ => unresolvedOracle) 0 noIdParams 99 rfl

/-- C7: when the invocation reaches the snapshot fetch and the fetch
yields nothing, main stops before filtering with the soft non-fatal shape
changed=False, no results, and the distinct fetch message. -/
theorem c7_empty_fetch_soft_exit (mk : Params → ProxmoxSnapAnsible)
    (now : ℚ) (p : Params)
    (hreach : (truthy p.vmid || truthy p.hostname) = true)
    (hempty : ∀ v, (mk p).snapshotGet v = []) :
    main true mk now p =
      ModuleExit.exitJson false (some "Snapshots could not be fetched")
        none ∧
    "Snapshots could not be fetched" ≠ "Vmid could not be fetched" := by
  refine ⟨?_, by decide⟩
  unfold main get_proxmox_snapshotlist fetchPart
  by_cases hv : truthy p.vmid = true
  · simp [hv, hempty]
  · have hv2 : truthy p.vmid = false := by
      cases hx : truthy p.vmid
      · rfl
      · exact absurd hx hv
    have hh : truthy p.hostname = true := by
      rw [hv2] at hreach
      simpa using hreach
    simp [hv2, hh, hempty]

/-- C7 witness: a vmid whose fetch returns the empty list. -/
theorem c7_empty_fetch_soft_exit_witness :
    main true (fun _ => emptyOracle) 0
      { hostname := none, vmid := some "100", timeout := 30,
        snapname := none, older_than := 0 } =
      ModuleExit.exitJson false (some "Snapshots could not be fetched")
        none :=
  (c7_empty_fetch_soft_exit (fun _ => emptyOracle) 0
    { hostname := none, vmid := some "100", timeout := 30,
      snapname := none, older_than := 0 }
    (by decide) (fun v => rfl)).1

/-- C8: the scenario with records current at now, daily_1 three days old
and daily_2 one day old, older_than two and no snapname filter returns
exactly the daily_1 name, at every current time. -/
theorem c8_scenario_a (now : ℚ) :
    snapLoop now none 2
      [⟨"current", now⟩, ⟨"daily_1", now - 3 * 86400⟩,
        ⟨"daily_2", now - 1 * 86400⟩] = ["daily_1"] := by
  have h1 : agePasses now (now - 3 * 86400) 2 = true := by
    simp only [agePasses, decide_eq_true_eq]
    ring_nf
    norm_num
  have h2 : agePasses now (now - 86400) 2 = false := by
    simp only [agePasses, decide_eq_false_iff_not]
    ring_nf
    norm_num
  simp [snapLoop, truthy, h1, h2]

/-- C9: the results preserve source order: the loop output equals the
source list filtered by the three checks and projected to names, and is
a sublist of the source names in their original order. -/
theorem c9_order_preserved (now : ℚ) (sn : Option String) (ot : ℤ)
    (snaps : List Snapshot) :
    snapLoop now sn ot snaps =
      (snaps.filter (keepSnap now sn ot)).map Snapshot.name ∧
    List.Sublist (snapLoop now sn ot snaps) (snaps.map Snapshot.name) := by
  refine ⟨snapLoop_eq_filter_map now sn ot snaps, ?_⟩
  rw [snapLoop_eq_filter_map]
  exact List.Sublist.map Snapshot.name (List.filter_sublist snaps)

/-- C10: with a truthy vmid, the hostname has no effect: two invocations
differing only in hostname, whose collaborators answer the snapshot fetch
for that vmid identically, produce identical outcomes; resolution is
never consulted. -/
theorem c10_hostname_noninterference (hps : Bool)
    (mk : Params → ProxmoxSnapAnsible) (now : ℚ) (p : Params)
    (h2 : Option String) (hv : truthy p.vmid = true)
    (hfetch : (mk p).snapshotGet p.vmid =
      (mk { p with hostname := h2 }).snapshotGet p.vmid) :
    main hps mk now p = main hps mk now { p with hostname := h2 } := by
  unfold main get_proxmox_snapshotlist fetchPart
  simp only [hv, Bool.not_true, Bool.false_and, Bool.false_eq_true,
    if_false]
  rw [hfetch]

/-- C10 witness: hostnames none and other with the same vmid and fetch. -/
theorem c10_hostname_noninterference_witness :
    main true (fun _ => emptyOracle) 0
      { hostname := none, vmid := some "100", timeout := 30,
        snapname := none, older_than := 0 } =
      main true (fun _ => emptyOracle) 0
        { hostname := some "other", vmid := some "100", timeout := 30,
          snapname := none, older_than := 0 } :=
  c10_hostname_noninterference true (fun _ => emptyOracle) 0
    { hostname := none, vmid := some "100", timeout := 30,
      snapname := none, older_than := 0 }
    (some "other") (by decide) rfl

end ProxmoxSnapInfo
